import Mathlib

/-!
Shallow embedding of the billed-generation core of the `ai_photoshoot_bot`
repository, together with theorems settling the frozen claims about it.

Source files embedded here:
* `src/db/repositories/users.py` — account rows, the spend primitive
  `consume_photoshoot_credit_or_balance`, the administrative adjustments
  `change_user_credits` / `change_user_balance`;
* `src/db/repositories/promo_codes.py` — `redeem_promo_code_for_user`;
* `src/services/photoshoot.py` — `_calculate_retry_delay`, the error
  classification of `_make_api_request`, and the retry loop of
  `generate_photoshoot_image`;
* `src/handlers/photoshoot.py` — `_run_generation` and the `use_avatar`
  advisory eligibility check (with its Python keyword-argument binding);
* `src/api/main.py` — `generate_photoshoot_from_upload`.

Machine integers of the source are Python arbitrary-precision integers, so
they are embedded as `Int` without wrap-around; the float arithmetic of
`_calculate_retry_delay` is embedded over `ℚ` (all constants involved are
exactly representable).
-/

namespace PhotoshootBot

/-- Account row of `users` (`src/db/models.py`): the spendable photoshoot
credit counter and the cash balance in rubles, keyed by `telegram_id`. -/
structure User where
  telegram_id : Int
  photoshoot_credits : Int
  balance : Int
  deriving DecidableEq

/-- Modelled from the spec: `PHOTOSHOOT_PRICE` is imported from
`src/constants.py` (and `src/data/styles.py`), which are absent from the
sources; the spec's §8 happy-path scenario fixes the per-generation price
at 50 rubles. -/
def PHOTOSHOOT_PRICE : Int := 50

/-- Core of `consume_photoshoot_credit_or_balance`
(`src/db/repositories/users.py:172-183`): first try to take one credit,
else charge the balance, else refuse and leave the row unchanged. -/
def consumeCore (user : User) (price_rub : Int) : Bool × User :=
  if 0 < user.photoshoot_credits then
    (true, { user with photoshoot_credits := user.photoshoot_credits - 1 })
  else if price_rub ≤ user.balance then
    (true, { user with balance := user.balance - price_rub })
  else
    (false, user)

/-- `consume_photoshoot_credit_or_balance(telegram_id, price_rub)`
(`src/db/repositories/users.py:162-183`): when no row exists for the id,
a fresh row with zero credits and zero balance is created first. -/
def consume_photoshoot_credit_or_balance (row : Option User) (telegram_id : Int)
    (price_rub : Int) : Bool × User :=
  consumeCore (row.getD ⟨telegram_id, 0, 0⟩) price_rub

/-- `change_user_credits(telegram_id, delta)`
(`src/db/repositories/users.py:244-258`): the administrative credit
adjustment, clamped at zero. -/
def change_user_credits (user : User) (delta : Int) : User :=
  { user with photoshoot_credits :=
      if user.photoshoot_credits + delta < 0 then 0 else user.photoshoot_credits + delta }

/-- `change_user_balance(telegram_id, delta)`
(`src/db/repositories/users.py:261-275`): the administrative balance
adjustment, clamped at zero. -/
def change_user_balance (user : User) (delta : Int) : User :=
  { user with balance :=
      if user.balance + delta < 0 then 0 else user.balance + delta }

/-- The core ledger mutations on a single account row: spend, the two
administrative adjustments, and the balance credit performed by the
success branch of `redeem_promo_code_for_user`
(`src/db/repositories/promo_codes.py:276-283`), whose grant is
`PHOTOSHOOT_PRICE * promo.generations` with `promo.generations > 0`
guaranteed by the lookup filter (`promo_codes.py:241-249`). -/
inductive LedgerOp where
  | spend (price_rub : Int)
  | creditsAdjust (delta : Int)
  | balanceAdjust (delta : Int)
  | redeemGrant (generations : Int)
  deriving DecidableEq

/-- Effect of one ledger operation on the account row. -/
def applyOp (user : User) : LedgerOp → User
  | .spend price_rub => (consumeCore user price_rub).2
  | .creditsAdjust delta => change_user_credits user delta
  | .balanceAdjust delta => change_user_balance user delta
  | .redeemGrant generations =>
      if 0 < generations then
        { user with balance := user.balance + PHOTOSHOOT_PRICE * generations }
      else user

/-! ### Two concurrent spend transactions (claim C3)

`consume_photoshoot_credit_or_balance` issues a plain `SELECT` (no
`with_for_update`, unlike `redeem_promo_code_for_user`), mutates the ORM
object in Python, and commits; the commit writes back the values computed
from the snapshot the transaction read.  Two concurrent calls are embedded
as two read/commit transactions over a shared account row, interleaved by
an explicit schedule. -/

/-- Shared state of two in-flight spend transactions: the durable row, the
snapshot each transaction has read (if it has reached its `SELECT`), and
the boolean each has returned (if it has committed). -/
structure TwoTxnState where
  shared : User
  snap1 : Option User
  snap2 : Option User
  res1 : Option Bool
  res2 : Option Bool
  deriving DecidableEq

/-- One scheduling step: a transaction reads the row, or computes its
decision from its snapshot and commits. -/
inductive SpendStep where
  | read1
  | read2
  | commit1
  | commit2
  deriving DecidableEq

/-- Effect of one step.  A commit writes back the row computed from the
snapshot (a rolled-back failure writes nothing), exactly the
"check then write without locking" structure of the source. -/
def spendStep (price_rub : Int) (st : TwoTxnState) : SpendStep → TwoTxnState
  | .read1 => { st with snap1 := some st.shared }
  | .read2 => { st with snap2 := some st.shared }
  | .commit1 =>
      match st.snap1 with
      | none => st
      | some u =>
          let r := consumeCore u price_rub
          { st with shared := if r.1 then r.2 else st.shared, res1 := some r.1 }
  | .commit2 =>
      match st.snap2 with
      | none => st
      | some u =>
          let r := consumeCore u price_rub
          { st with shared := if r.1 then r.2 else st.shared, res2 := some r.1 }

/-- Run a schedule of steps from an initial durable row. -/
def runSpendSchedule (price_rub : Int) (init : User) (steps : List SpendStep) :
    TwoTxnState :=
  steps.foldl (spendStep price_rub) ⟨init, none, none, none, none⟩

/-! ### Promo codes (claims C8, C9)

From `src/db/repositories/promo_codes.py` and the
`promo_code_redemptions` table of
`alembic/versions/90eb263fb3fe_add_promo_code_redemptions.py`
(unique constraint `uq_promo_redemption` on
`(promo_code_id, telegram_id)`). -/

/-- Row of `promo_codes`. -/
structure PromoCode where
  id : Nat
  code : String
  generations : Int
  is_active : Bool
  deriving DecidableEq

/-- Row of `promo_code_redemptions`. -/
structure PromoCodeRedemption where
  promo_code_id : Nat
  telegram_id : Int
  granted_generations : Int
  deriving DecidableEq

/-- The tables touched by promo redemption. -/
structure LedgerDB where
  promo_codes : List PromoCode
  redemptions : List PromoCodeRedemption
  users : List User
  deriving DecidableEq

/-- The three outcomes of `redeem_promo_code_for_user`. -/
inductive RedeemStatus where
  | ok
  | already_used
  | invalid
  deriving DecidableEq

/-- Python `str.upper()` on the characters that can occur in promo codes:
ASCII letters and Cyrillic (`а`–`я` and `ё`). -/
def pyUpperChar (c : Char) : Char :=
  if 0x61 ≤ c.toNat ∧ c.toNat ≤ 0x7A then Char.ofNat (c.toNat - 0x20)
  else if 0x430 ≤ c.toNat ∧ c.toNat ≤ 0x44F then Char.ofNat (c.toNat - 0x20)
  else if c.toNat = 0x451 then Char.ofNat 0x401
  else c

/-- Python `str.strip()` on a character list: drop whitespace from both
ends. -/
def pyStrip (s : List Char) : List Char :=
  ((s.dropWhile Char.isWhitespace).reverse.dropWhile Char.isWhitespace).reverse

/-- `_normalize_code` (`promo_codes.py:13-19`): strip surrounding
whitespace, uppercase. -/
def _normalize_code (code : String) : String :=
  ((pyStrip code.toList).map pyUpperChar).asString

/-- The `SELECT ... WHERE code = :c AND is_active AND generations > 0`
lookup (`promo_codes.py:241-250`). -/
def findPromoForUse (db : LedgerDB) (normalized : String) : Option PromoCode :=
  db.promo_codes.find? fun p =>
    p.code == normalized && p.is_active && decide (0 < p.generations)

/-- Balance of a user row, 0 when the row is absent
(`_get_balance`, `promo_codes.py:232-236`). -/
def getBalance (db : LedgerDB) (telegram_id : Int) : Int :=
  match db.users.find? (fun u => u.telegram_id == telegram_id) with
  | some u => u.balance
  | none => 0

/-- `redeem_promo_code_for_user(telegram_id, code)`
(`promo_codes.py:216-294`).  Returns `(status, granted, balance)` and the
database after the call.  The duplicate-`(promo_code_id, telegram_id)`
check models the `IntegrityError` raised by `uq_promo_redemption` at
commit time; on that error the whole transaction is rolled back.  Note the
success branch inserts the redemption row and credits the balance but
never writes the `promo_codes` row. -/
def redeemCore (db : LedgerDB) (telegram_id : Int)
    (normalized : String) : (RedeemStatus × Int × Int) × LedgerDB :=
  if (normalized == "") || decide (telegram_id ≤ 0) then
    ((.invalid, 0, 0), db)
  else
    match findPromoForUse db normalized with
    | none => ((.invalid, 0, getBalance db telegram_id), db)
    | some promo =>
        let grant_generations := promo.generations
        let credit_rub := PHOTOSHOOT_PRICE * grant_generations
        if db.redemptions.any fun r =>
            r.promo_code_id == promo.id && r.telegram_id == telegram_id then
          ((.already_used, 0, getBalance db telegram_id), db)
        else
          let users0 :=
            if db.users.any (fun u => u.telegram_id == telegram_id) then db.users
            else db.users ++ [⟨telegram_id, 0, 0⟩]
          let users1 := users0.map fun u =>
            if u.telegram_id == telegram_id then
              { u with balance := u.balance + credit_rub }
            else u
          let db1 : LedgerDB :=
            { db with
                users := users1,
                redemptions :=
                  db.redemptions ++ [⟨promo.id, telegram_id, grant_generations⟩] }
          ((.ok, grant_generations, getBalance db1 telegram_id), db1)

/-- `redeem_promo_code_for_user` proper: normalize the code, then run the
transaction body. -/
def redeem_promo_code_for_user (db : LedgerDB) (telegram_id : Int)
    (code : String) : (RedeemStatus × Int × Int) × LedgerDB :=
  redeemCore db telegram_id (_normalize_code code)

/-! ### The generation handlers (claims C1, C5, C6)

`_run_generation` (`src/handlers/photoshoot.py:766-1010`) and
`generate_photoshoot_from_upload` (`src/api/main.py:432-509`), restricted
to the billing-relevant state: the account row and the `photoshoot_logs`
records they create.  The bot handler calls
`consume_photoshoot_credit_or_balance` with a `check_only=` keyword
argument that the bound function
(`src/db/__init__.py:20-38` → `src/db/repositories/users.py:162`) does not
accept, so the Python call raises `TypeError` before any database access;
the keyword binding is embedded explicitly. -/

/-- Terminal status of a photoshoot log record (`src/db/enums.py`). -/
inductive PhotoshootStatus where
  | success
  | failed
  deriving DecidableEq

/-- The billing fields of a `photoshoot_logs` record created by
`log_photoshoot` (`src/db/repositories/photoshoots.py:14-60`). -/
structure PhotoshootLog where
  status : PhotoshootStatus
  cost_rub : Int
  cost_credits : Int
  deriving DecidableEq

/-- Python keyword binding for a function without `**kwargs` and without
defaulted parameters at the studied call sites: the call binds iff every
keyword is a declared parameter and every parameter is supplied. -/
def acceptsKwargs (params kwargs : List String) : Bool :=
  kwargs.all (fun k => params.contains k) && params.all (fun p => kwargs.contains p)

/-- Parameters of `consume_photoshoot_credit_or_balance`
(`src/db/repositories/users.py:162`). -/
def consumeParamNames : List String := ["telegram_id", "price_rub"]

/-- Keywords at the bot call sites (`src/handlers/photoshoot.py:846-850`,
`1075-1079`, `1141-1145`): all three pass `check_only=`. -/
def consumeCallWithCheckOnlyKwargs : List String :=
  ["telegram_id", "price_rub", "check_only"]

/-- Keywords at the web call site (`src/api/main.py:460-463`). -/
def consumeCallWebKwargs : List String := ["telegram_id", "price_rub"]

/-- Python-level exceptions distinguished by the embedding. -/
inductive PyError where
  | typeError
  deriving DecidableEq

/-- A call to the bound `consume_photoshoot_credit_or_balance` with the
given keyword names: a binding failure raises `TypeError` before the
function body (and hence before any database access) runs. -/
def call_consume_photoshoot_credit_or_balance (acc : User)
    (kwargs : List String) (price_rub : Int) : Except PyError (Bool × User) :=
  if acceptsKwargs consumeParamNames kwargs then .ok (consumeCore acc price_rub)
  else .error .typeError

/-- Result of one `_run_generation` sequence: the log records it created,
the account row afterwards, and whether the generated image was delivered
to the user. -/
structure RunResult where
  logs : List PhotoshootLog
  account : User
  delivered : Bool
  deriving DecidableEq

/-- `_run_generation` (`src/handlers/photoshoot.py:812-958`), billing
view.  `genOk` is whether `generate_photoshoot_image` returned; on any
exception (including the `TypeError` from the `check_only=` charge call)
the `except` branch logs a `failed` record with `cost_rub=log_cost_rub`
and nothing is charged; the charge-returned-False branch returns without
logging; the success path logs a `success` record with
`cost_rub=log_cost_rub`. -/
def _run_generation (acc : User) (user_is_admin : Bool) (log_cost_rub : Int)
    (genOk : Bool) : RunResult :=
  if !genOk then
    ⟨[⟨.failed, log_cost_rub, 0⟩], acc, false⟩
  else if !user_is_admin && decide (0 < log_cost_rub) then
    match call_consume_photoshoot_credit_or_balance acc
        consumeCallWithCheckOnlyKwargs log_cost_rub with
    | .error _ => ⟨[⟨.failed, log_cost_rub, 0⟩], acc, false⟩
    | .ok (false, acc1) => ⟨[], acc1, false⟩
    | .ok (true, acc1) => ⟨[⟨.success, log_cost_rub, 0⟩], acc1, true⟩
  else
    ⟨[⟨.success, log_cost_rub, 0⟩], acc, true⟩

/-- HTTP-level outcome of the web endpoint. -/
inductive WebOutcome where
  | ok
  | paymentRequired
  | serverError
  deriving DecidableEq

/-- `generate_photoshoot_from_upload` (`src/api/main.py:432-509`), billing
view: non-admins are charged through
`consume_photoshoot_credit_or_balance` (called with the two accepted
keywords) BEFORE the provider is invoked; a generation failure logs a
`failed` record with the already-charged `cost_rub` and returns HTTP 500
without refunding. -/
def generate_photoshoot_from_upload (acc : User) (is_admin : Bool)
    (genOk : Bool) : WebOutcome × User × List PhotoshootLog :=
  if is_admin then
    if genOk then (.ok, acc, [⟨.success, 0, 0⟩])
    else (.serverError, acc, [⟨.failed, 0, 0⟩])
  else
    match call_consume_photoshoot_credit_or_balance acc consumeCallWebKwargs
        PHOTOSHOOT_PRICE with
    | .error _ => (.serverError, acc, [])
    | .ok (false, acc1) => (.paymentRequired, acc1, [])
    | .ok (true, acc1) =>
        if genOk then (.ok, acc1, [⟨.success, PHOTOSHOOT_PRICE, 0⟩])
        else (.serverError, acc1, [⟨.failed, PHOTOSHOOT_PRICE, 0⟩])

/-! ### Provider client and retry orchestrator (claim C7)

`_make_api_request` (`src/services/photoshoot.py:230-313`) classifies each
HTTP outcome into a raised `RuntimeError` carrying a Russian message; the
retry loop of `generate_photoshoot_image`
(`src/services/photoshoot.py:417-501`) re-raises immediately ("fatal")
when the lowercased message contains one of three fixed substrings, and
otherwise retries until the attempt ceiling. -/

/-- Python `str.lower()` on the characters occurring in the classified
messages: ASCII letters and Cyrillic (`А`–`Я` and `Ё`). -/
def pyLowerChar (c : Char) : Char :=
  if 0x41 ≤ c.toNat ∧ c.toNat ≤ 0x5A then Char.ofNat (c.toNat + 0x20)
  else if 0x410 ≤ c.toNat ∧ c.toNat ≤ 0x42F then Char.ofNat (c.toNat + 0x20)
  else if c.toNat = 0x401 then Char.ofNat 0x451
  else c

/-- Python `str.lower()` lifted to strings. -/
def pyLower (s : String) : String :=
  (s.toList.map pyLowerChar).asString

/-- Whether `pat` occurs as a contiguous substring of `hay`
(Python `pat in hay`). -/
def hasSubstr : List Char → List Char → Bool
  | [], pat => pat.isEmpty
  | c :: t, pat => pat.isPrefixOf (c :: t) || hasSubstr t pat

/-- Python `pat in hay` on strings. -/
def strContainsSub (hay pat : String) : Bool :=
  hasSubstr hay.toList pat.toList

/-- The fatal substrings of the retry loop
(`src/services/photoshoot.py:468`). -/
def fatalSubstrings : List String :=
  ["авторизации", "доступ запрещен", "некорректный запрос"]

/-- `any(fatal in error_msg.lower() for fatal in [...])`
(`src/services/photoshoot.py:468`). -/
def isFatalMsg (error_msg : String) : Bool :=
  fatalSubstrings.any fun fatal => strContainsSub (pyLower error_msg) fatal

/-- One provider attempt outcome at the transport level: an HTTP 200 whose
body does or does not parse as JSON, another HTTP status, a timeout, or a
network error. -/
inductive ProviderResp where
  | ok200 (parseable : Bool)
  | status (code : Nat)
  | timeout
  | network
  deriving DecidableEq

/-- Result of `_make_api_request` for one attempt: parsed data, or a
raised `RuntimeError` with its message. -/
inductive AttemptResult where
  | ok
  | err (msg : String)
  deriving DecidableEq

/-- The classification of `_make_api_request`
(`src/services/photoshoot.py:254-313`): the exact `RuntimeError` messages
raised for each transport outcome (an unparseable 200 body raises
"Некорректный ответ от сервера API", `photoshoot.py:260`). -/
def _make_api_request (resp : ProviderResp) : AttemptResult :=
  match resp with
  | .ok200 true => .ok
  | .ok200 false => .err "Некорректный ответ от сервера API"
  | .status c =>
      if c = 429 then .err "Rate limit, пробуем снова"
      else if c = 500 ∨ c = 502 ∨ c = 503 ∨ c = 504 then
        .err ("Серверная ошибка " ++ toString c)
      else if c = 401 then .err "Ошибка авторизации API. Проверьте ключ."
      else if c = 403 then .err "Доступ запрещен. Проверьте лимиты API."
      else if c = 400 then .err "Некорректный запрос к API."
      else if c = 404 then .err ("Ошибка клиента: " ++ toString c)
      else .err ("Неизвестная ошибка API: " ++ toString c)
  | .timeout => .err "Таймаут запроса (120 сек)"
  | .network => .err "Сетевая ошибка: ClientError"

/-- Terminal outcome of the retry loop: success, an immediately re-raised
fatal error, or exhaustion of the attempt ceiling. -/
inductive RetryOutcome where
  | success
  | fatal (msg : String)
  | exhausted
  deriving DecidableEq

/-- The retry loop body (`src/services/photoshoot.py:423-501`): `script n`
is the transport outcome of attempt `n`; `remaining` is the number of
attempts still allowed including the current one.  Returns the terminal
outcome and the number of provider invocations performed. -/
def retryAux (script : Nat → ProviderResp) : Nat → Nat → RetryOutcome × Nat
  | 0, attempt => (.exhausted, attempt - 1)
  | remaining + 1, attempt =>
      match _make_api_request (script attempt) with
      | .ok => (.success, attempt)
      | .err msg =>
          if isFatalMsg msg then (.fatal msg, attempt)
          else if remaining = 0 then (.exhausted, attempt)
          else retryAux script remaining (attempt + 1)

/-- The retry loop of `generate_photoshoot_image`: attempts are numbered
from 1 up to `max_retries`. -/
def generate_photoshoot_image (script : Nat → ProviderResp)
    (max_retries : Nat) : RetryOutcome × Nat :=
  retryAux script max_retries 1

/-! ### Retry delay (claim C10)

`_calculate_retry_delay` (`src/services/photoshoot.py:166-186`), embedded
over `ℚ` (every constant involved is exactly representable in binary
floating point).  The sampled `random.uniform(0, base_delay * 0.25)` value
is an explicit argument constrained to its range. -/

/-- `APIErrorType` (`src/services/photoshoot.py:46-52`). -/
inductive APIErrorType where
  | rate_limit
  | server_error
  | timeout
  | network
  | auth
  | validation
  deriving DecidableEq

/-- `RETRY_BASE_DELAY_SECONDS = 2.0` (`photoshoot.py:31`). -/
def RETRY_BASE_DELAY_SECONDS : ℚ := 2

/-- `RETRY_MAX_DELAY_SECONDS = 120.0` (`photoshoot.py:32`). -/
def RETRY_MAX_DELAY_SECONDS : ℚ := 120

/-- `RETRY_BACKOFF_MULTIPLIER = 2.0` (`photoshoot.py:33`). -/
def RETRY_BACKOFF_MULTIPLIER : ℚ := 2

/-- The `base_delay` computed by `_calculate_retry_delay` before the
jitter is added (`photoshoot.py:168-179`), including the final clamp
`base_delay = min(base_delay, RETRY_MAX_DELAY_SECONDS)`. -/
def _calculate_retry_delay_base (attempt : Nat)
    (error_type : Option APIErrorType) : ℚ :=
  let base0 : ℚ :=
    if error_type = some .rate_limit then min (30 * (attempt : ℚ)) 300
    else if error_type = some .server_error then
      min (RETRY_BASE_DELAY_SECONDS * RETRY_BACKOFF_MULTIPLIER ^ (attempt - 1)) 60
    else RETRY_BASE_DELAY_SECONDS * RETRY_BACKOFF_MULTIPLIER ^ (attempt - 1)
  min base0 RETRY_MAX_DELAY_SECONDS

/-- `_calculate_retry_delay` (`photoshoot.py:166-186`): the clamped base
plus the sampled jitter.  The jitter sample lies in
`[0, base_delay * 0.25]`; it is passed explicitly. -/
def _calculate_retry_delay (attempt : Nat) (error_type : Option APIErrorType)
    (jitter : ℚ) : ℚ :=
  _calculate_retry_delay_base attempt error_type + jitter

/-! ### Theorems -/

/-- Nonnegativity of credits and balance is preserved by every single
ledger operation. -/
theorem applyOp_nonneg (user : User) (op : LedgerOp)
    (hc : 0 ≤ user.photoshoot_credits) (hb : 0 ≤ user.balance) :
    0 ≤ (applyOp user op).photoshoot_credits ∧ 0 ≤ (applyOp user op).balance := by
  cases op with
  | spend price_rub =>
      simp only [applyOp, consumeCore]
      split_ifs with h1 h2
      · exact ⟨show (0:Int) ≤ user.photoshoot_credits - 1 by omega, hb⟩
      · exact ⟨hc, show (0:Int) ≤ user.balance - price_rub by omega⟩
      · exact ⟨hc, hb⟩
  | creditsAdjust delta =>
      simp only [applyOp, change_user_credits]
      split_ifs with h
      · exact ⟨le_refl 0, hb⟩
      · exact ⟨show (0:Int) ≤ user.photoshoot_credits + delta by omega, hb⟩
  | balanceAdjust delta =>
      simp only [applyOp, change_user_balance]
      split_ifs with h
      · exact ⟨hc, le_refl 0⟩
      · exact ⟨hc, show (0:Int) ≤ user.balance + delta by omega⟩
  | redeemGrant generations =>
      simp only [applyOp]
      split_ifs with h
      · refine ⟨hc, ?_⟩
        have hg : (0:Int) ≤ PHOTOSHOOT_PRICE * generations := by
          have h50 : (0:Int) ≤ PHOTOSHOOT_PRICE := by norm_num [PHOTOSHOOT_PRICE]
          exact mul_nonneg h50 (le_of_lt h)
        show (0:Int) ≤ user.balance + PHOTOSHOOT_PRICE * generations
        omega
      · exact ⟨hc, hb⟩

/-- A spend that fails leaves the row untouched (fail closed, no clamping). -/
theorem consumeCore_fail_closed (user : User) (price_rub : Int)
    (h : (consumeCore user price_rub).1 = false) :
    (consumeCore user price_rub).2 = user := by
  unfold consumeCore at h ⊢
  split_ifs at h ⊢
  rfl

/-- C2: for every account state and price, the spend primitive
`consume_photoshoot_credit_or_balance` returns true and decrements the
credits by exactly one when credits are positive; otherwise returns true
and decrements the balance by exactly the price when the balance covers
the price; otherwise returns false and leaves the row unchanged. -/
theorem c2_trySpend_contract (user : User) (price_rub : Int) :
    (0 < user.photoshoot_credits →
      consumeCore user price_rub =
        (true, { user with photoshoot_credits := user.photoshoot_credits - 1 })) ∧
    (¬ 0 < user.photoshoot_credits → price_rub ≤ user.balance →
      consumeCore user price_rub =
        (true, { user with balance := user.balance - price_rub })) ∧
    (¬ 0 < user.photoshoot_credits → ¬ price_rub ≤ user.balance →
      consumeCore user price_rub = (false, user)) := by
  refine ⟨fun h1 => ?_, fun h1 h2 => ?_, fun h1 h2 => ?_⟩
  · simp [consumeCore, h1]
  · simp [consumeCore, h1, h2]
  · simp [consumeCore, h1, h2]

/-- Witness for C2: the three branches at concrete rows with price 3. -/
theorem c2_trySpend_contract_witness :
    consumeCore ⟨7, 1, 5⟩ 3 = (true, ⟨7, 0, 5⟩) ∧
    consumeCore ⟨7, 0, 5⟩ 3 = (true, ⟨7, 0, 2⟩) ∧
    consumeCore ⟨7, 0, 2⟩ 3 = (false, ⟨7, 0, 2⟩) := by
  refine ⟨?_, ?_, ?_⟩
  · exact (c2_trySpend_contract ⟨7, 1, 5⟩ 3).1 (by decide)
  · exact (c2_trySpend_contract ⟨7, 0, 5⟩ 3).2.1 (by decide) (by decide)
  · exact (c2_trySpend_contract ⟨7, 0, 2⟩ 3).2.2 (by decide) (by decide)

/-- C3: with an account holding exactly one credit, the interleaving in
which both spend transactions read the row before either commits makes
BOTH calls return true — the claimed row-level locking does not exist in
`consume_photoshoot_credit_or_balance` (plain `SELECT`, no
`with_for_update`), so two concurrent spends can both succeed on a single
credit. -/
theorem c3_unlocked_spend_double_success :
    (runSpendSchedule 100 ⟨42, 1, 0⟩
        [.read1, .read2, .commit1, .commit2]).res1 = some true ∧
    (runSpendSchedule 100 ⟨42, 1, 0⟩
        [.read1, .read2, .commit1, .commit2]).res2 = some true ∧
    (runSpendSchedule 100 ⟨42, 1, 0⟩
        [.read1, .read2, .commit1, .commit2]).shared = ⟨42, 0, 0⟩ := by
  decide

/-- Serialized schedules do behave as the claim demands: if the second
transaction reads only after the first committed, exactly one call
succeeds.  (Context for C3: the failure is specific to the unlocked
interleaving.) -/
theorem serializedSpendSchedule_one_success :
    (runSpendSchedule 100 ⟨42, 1, 0⟩
        [.read1, .commit1, .read2, .commit2]).res1 = some true ∧
    (runSpendSchedule 100 ⟨42, 1, 0⟩
        [.read1, .commit1, .read2, .commit2]).res2 = some false := by
  decide

/-- C4: every sequence of core ledger operations (spend, administrative
credit adjustment, administrative balance adjustment, promo-redemption
balance credit) keeps credits and balance non-negative; and spend fails
closed: a refused spend leaves the row exactly as it was. -/
theorem c4_ledger_nonneg (ops : List LedgerOp) (user : User)
    (hc : 0 ≤ user.photoshoot_credits) (hb : 0 ≤ user.balance) :
    (0 ≤ (ops.foldl applyOp user).photoshoot_credits ∧
      0 ≤ (ops.foldl applyOp user).balance) ∧
    (∀ v : User, ∀ price_rub : Int, (consumeCore v price_rub).1 = false →
      (consumeCore v price_rub).2 = v) := by
  have main : ∀ (l : List LedgerOp) (u : User),
      0 ≤ u.photoshoot_credits → 0 ≤ u.balance →
      0 ≤ (l.foldl applyOp u).photoshoot_credits ∧
        0 ≤ (l.foldl applyOp u).balance := by
    intro l
    induction l with
    | nil => exact fun u h1 h2 => ⟨h1, h2⟩
    | cons op rest ih =>
        intro u h1 h2
        have h := applyOp_nonneg u op h1 h2
        exact ih (applyOp u op) h.1 h.2
  exact ⟨main ops user hc hb,
    fun v price_rub h => consumeCore_fail_closed v price_rub h⟩

/-- Witness for C4: a concrete operation sequence over a concrete row. -/
theorem c4_ledger_nonneg_witness :
    0 ≤ (([LedgerOp.creditsAdjust (-5), LedgerOp.spend 50,
        LedgerOp.redeemGrant 2, LedgerOp.balanceAdjust (-1000)].foldl
          applyOp ⟨9, 1, 60⟩)).photoshoot_credits ∧
    0 ≤ (([LedgerOp.creditsAdjust (-5), LedgerOp.spend 50,
        LedgerOp.redeemGrant 2, LedgerOp.balanceAdjust (-1000)].foldl
          applyOp ⟨9, 1, 60⟩)).balance :=
  (c4_ledger_nonneg [LedgerOp.creditsAdjust (-5), LedgerOp.spend 50,
      LedgerOp.redeemGrant 2, LedgerOp.balanceAdjust (-1000)] ⟨9, 1, 60⟩
    (by decide) (by decide)).1

/-- C1: the web endpoint `generate_photoshoot_from_upload` charges the
account BEFORE invoking the provider and keeps the charge when generation
fails: a non-admin with 0 credits and balance 50 whose generation fails
ends the failed sequence with balance 0, not 50 — the account does not
equal its pre-sequence value and the charge was applied before any
successful generation. -/
theorem c1_web_charged_on_failure :
    generate_photoshoot_from_upload ⟨1, 0, 50⟩ false false =
      (.serverError, ⟨1, 0, 0⟩, [⟨.failed, 50, 0⟩]) ∧
    (generate_photoshoot_from_upload ⟨1, 0, 50⟩ false false).2.1.balance ≠
      (⟨1, 0, 50⟩ : User).balance := by
  decide

/-- The keyword-`check_only` call of `consume_photoshoot_credit_or_balance`
raises `TypeError` at binding time: the bound function declares only
`telegram_id` and `price_rub`. -/
theorem call_consume_check_only_raises (acc : User) (price_rub : Int) :
    call_consume_photoshoot_credit_or_balance acc
      consumeCallWithCheckOnlyKwargs price_rub = .error .typeError := rfl

/-- C6: the advisory eligibility check of `use_avatar`
(`consume_photoshoot_credit_or_balance(..., check_only=True)`) does not
return a boolean for any account and price: the bound function has no
`check_only` parameter, so the call raises `TypeError` before any
database access (the handler comment documents the intended read-only
check, which the function never implements). -/
theorem c6_advisory_check_raises (acc : User) (price_rub : Int) :
    call_consume_photoshoot_credit_or_balance acc
        consumeCallWithCheckOnlyKwargs price_rub = .error .typeError ∧
    acceptsKwargs consumeParamNames consumeCallWithCheckOnlyKwargs = false :=
  ⟨call_consume_check_only_raises acc price_rub, rfl⟩

/-- C5 counterexample: a failed non-admin bot generation writes a
`failed` log record whose `cost_rub` is the nominal price 50, not 0 —
refuting "amount charged is 0 whenever the terminal status is failure". -/
theorem c5_failure_log_cost_counterexample :
    (_run_generation ⟨5, 0, 100⟩ false 50 false).logs = [⟨.failed, 50, 0⟩] ∧
    ¬ ((⟨.failed, 50, 0⟩ : PhotoshootLog).cost_rub = 0) := by
  decide

/-- C5 (amended): every `_run_generation` sequence creates exactly one log
record, the record's `cost_rub` always equals the request's nominal
`log_cost_rub` (0 for admins, the price otherwise, as set by the
callers), and admin records therefore carry 0. -/
theorem c5_one_log_per_request (user_is_admin genOk : Bool) (acc : User) :
    ((_run_generation acc user_is_admin
        (if user_is_admin then 0 else PHOTOSHOOT_PRICE) genOk).logs).length = 1 ∧
    (∀ l ∈ (_run_generation acc user_is_admin
        (if user_is_admin then 0 else PHOTOSHOOT_PRICE) genOk).logs,
      l.cost_rub = if user_is_admin then 0 else PHOTOSHOOT_PRICE) ∧
    (user_is_admin = true →
      ∀ l ∈ (_run_generation acc user_is_admin
          (if user_is_admin then 0 else PHOTOSHOOT_PRICE) genOk).logs,
        l.cost_rub = 0) := by
  have hbind : ∀ (a : User) (p : Int),
      call_consume_photoshoot_credit_or_balance a
        consumeCallWithCheckOnlyKwargs p = .error .typeError :=
    fun a p => rfl
  cases user_is_admin <;> cases genOk <;>
    simp [_run_generation, hbind, PHOTOSHOOT_PRICE]

/-- Witness for C5 (amended): the admin success run. -/
theorem c5_one_log_per_request_witness :
    ((_run_generation ⟨3, 0, 0⟩ true 0 true).logs).length = 1 ∧
    (⟨.success, 0, 0⟩ : PhotoshootLog).cost_rub = 0 := by
  have h := c5_one_log_per_request true true ⟨3, 0, 0⟩
  exact ⟨h.1, h.2.2 rfl ⟨.success, 0, 0⟩ (by decide)⟩

/-- C7 counterexample: an unparseable success response (HTTP 200 whose
body fails to parse) raises "Некорректный ответ от сервера API", which
matches none of the fatal substrings, so the orchestrator retries: with
that classification on attempt 1 and a success on attempt 2, the loop
performs 2 provider invocations, not 1. -/
theorem c7_unparseable_success_retried :
    _make_api_request (.ok200 false) =
      .err "Некорректный ответ от сервера API" ∧
    isFatalMsg "Некорректный ответ от сервера API" = false ∧
    generate_photoshoot_image
        (fun n => if n = 1 then .ok200 false else .ok200 true) 5 =
      (.success, 2) := by
  refine ⟨rfl, by decide, by decide⟩

/-- C7 (amended): a `401` (unauthorized), `403` (forbidden) or `400`
(bad request) classification on attempt 1 short-circuits the retry loop:
exactly one provider invocation is performed.  An unparseable 200-success
body, by contrast, is classified as retryable (see the counterexample). -/
theorem c7_terminal_short_circuit (script : Nat → ProviderResp)
    (max_retries : Nat) (hm : 1 ≤ max_retries)
    (h : script 1 = .status 401 ∨ script 1 = .status 403 ∨
      script 1 = .status 400) :
    (generate_photoshoot_image script max_retries).2 = 1 := by
  obtain ⟨r, rfl⟩ : ∃ r, max_retries = r + 1 := ⟨max_retries - 1, by omega⟩
  unfold generate_photoshoot_image
  rcases h with h | h | h
  · have e : _make_api_request (script 1) =
        .err "Ошибка авторизации API. Проверьте ключ." := by
      rw [h]; decide
    simp [retryAux, e,
      (by decide : isFatalMsg "Ошибка авторизации API. Проверьте ключ." = true)]
  · have e : _make_api_request (script 1) =
        .err "Доступ запрещен. Проверьте лимиты API." := by
      rw [h]; decide
    simp [retryAux, e,
      (by decide : isFatalMsg "Доступ запрещен. Проверьте лимиты API." = true)]
  · have e : _make_api_request (script 1) =
        .err "Некорректный запрос к API." := by
      rw [h]; decide
    simp [retryAux, e,
      (by decide : isFatalMsg "Некорректный запрос к API." = true)]

/-- Witness for C7 (amended): every attempt answers 401; one invocation. -/
theorem c7_terminal_short_circuit_witness :
    (generate_photoshoot_image (fun _ => .status 401) 5).2 = 1 :=
  c7_terminal_short_circuit (fun _ => .status 401) 5 (by norm_num)
    (Or.inl rfl)

/-- C10 counterexample: at attempt 7 with the default classification the
clamped base delay is exactly `RETRY_MAX_DELAY_SECONDS = 120`; the
sampled jitter 30 is admissible (`0 ≤ 30 ≤ 120 * 0.25`), and the computed
delay `120 + 30 = 150` EXCEEDS the configured maximum delay — the jitter
is added after the clamp. -/
theorem c10_delay_exceeds_max :
    (0 ≤ (30:ℚ) ∧
      (30:ℚ) ≤ _calculate_retry_delay_base 7 none * (25/100)) ∧
    RETRY_MAX_DELAY_SECONDS < _calculate_retry_delay 7 none 30 := by
  have hbase : _calculate_retry_delay_base 7 none = 120 := by
    simp only [_calculate_retry_delay_base]
    rw [if_neg (by decide : ¬((none : Option APIErrorType) = some .rate_limit)),
      if_neg (by decide : ¬((none : Option APIErrorType) = some .server_error))]
    norm_num [RETRY_BASE_DELAY_SECONDS, RETRY_BACKOFF_MULTIPLIER,
      RETRY_MAX_DELAY_SECONDS, min_def]
  refine ⟨⟨by norm_num, ?_⟩, ?_⟩
  · rw [hbase]; norm_num
  · unfold _calculate_retry_delay
    rw [hbase]
    norm_num [RETRY_MAX_DELAY_SECONDS]

/-- C10 (amended): for every attempt `n ≥ 1`, every error classification
and every admissible jitter sample, the computed delay is non-negative
and bounded by `RETRY_MAX_DELAY_SECONDS * 1.25` (the clamp applies to the
base only; the jitter can add up to a quarter on top). -/
theorem c10_delay_bound (attempt : Nat) (error_type : Option APIErrorType)
    (jitter : ℚ) (hn : 1 ≤ attempt) (h0 : 0 ≤ jitter)
    (hj : jitter ≤ _calculate_retry_delay_base attempt error_type * (25/100)) :
    0 ≤ _calculate_retry_delay attempt error_type jitter ∧
    _calculate_retry_delay attempt error_type jitter ≤
      RETRY_MAX_DELAY_SECONDS * (5/4) := by
  have hb0 : 0 ≤ _calculate_retry_delay_base attempt error_type := by
    unfold _calculate_retry_delay_base
    have h1 : (0:ℚ) ≤ 30 * (attempt:ℚ) := by positivity
    have h2 : (0:ℚ) ≤
        RETRY_BASE_DELAY_SECONDS * RETRY_BACKOFF_MULTIPLIER ^ (attempt - 1) := by
      rw [RETRY_BASE_DELAY_SECONDS, RETRY_BACKOFF_MULTIPLIER]
      positivity
    refine le_min ?_ (by norm_num [RETRY_MAX_DELAY_SECONDS])
    split_ifs
    · exact le_min h1 (by norm_num)
    · exact le_min h2 (by norm_num)
    · exact h2
  have hb1 : _calculate_retry_delay_base attempt error_type ≤
      RETRY_MAX_DELAY_SECONDS := by
    unfold _calculate_retry_delay_base
    exact min_le_right _ _
  rw [RETRY_MAX_DELAY_SECONDS] at hb1 ⊢
  unfold _calculate_retry_delay
  constructor
  · linarith
  · linarith

/-- Witness for C10 (amended): attempt 7, default classification,
jitter 30. -/
theorem c10_delay_bound_witness :
    0 ≤ _calculate_retry_delay 7 none 30 ∧
    _calculate_retry_delay 7 none 30 ≤ RETRY_MAX_DELAY_SECONDS * (5/4) := by
  refine c10_delay_bound 7 none 30 (by norm_num) (by norm_num) ?_
  have hbase : _calculate_retry_delay_base 7 none = 120 := by
    simp only [_calculate_retry_delay_base]
    rw [if_neg (by decide : ¬((none : Option APIErrorType) = some .rate_limit)),
      if_neg (by decide : ¬((none : Option APIErrorType) = some .server_error))]
    norm_num [RETRY_BASE_DELAY_SECONDS, RETRY_BACKOFF_MULTIPLIER,
      RETRY_MAX_DELAY_SECONDS, min_def]
  rw [hbase]
  norm_num

/-- C8 counterexample: after the first successful redemption of an active
code with remaining value 5, the code row is byte-for-byte unchanged —
still active, still with its full remaining value; nothing in the success
transaction decrements or deactivates it. -/
theorem c8_promo_not_disabled_counterexample :
    (redeem_promo_code_for_user
        ⟨[⟨1, "NEWYEAR", 5, true⟩], [], [⟨7, 0, 0⟩]⟩ 7 "NEWYEAR").1.1 =
      .ok ∧
    (redeem_promo_code_for_user
        ⟨[⟨1, "NEWYEAR", 5, true⟩], [], [⟨7, 0, 0⟩]⟩ 7 "NEWYEAR").2.promo_codes
      = [⟨1, "NEWYEAR", 5, true⟩] := by
  decide

/-- C8 (amended): `redeem_promo_code_for_user` never writes the
`promo_codes` table at all — the code is not self-disabled; only the
unique `(promo_code_id, telegram_id)` redemption record limits reuse, and
only per account. -/
theorem c8_redeem_keeps_promo_row (db : LedgerDB) (telegram_id : Int)
    (code : String) :
    (redeem_promo_code_for_user db telegram_id code).2.promo_codes =
      db.promo_codes := by
  unfold redeem_promo_code_for_user redeemCore
  split
  · rfl
  · split
    · rfl
    · split
      · rfl
      · rfl

/-- C9: with positive telegram ids and non-empty stored codes, redemption
returns `invalid` exactly when no stored promo code matches the
normalized input while being active with positive remaining value; when
the matching code has already been redeemed by this account (the unique
`uq_promo_redemption` constraint rejects the insert, caught and
translated), it returns `already_used` and rolls the transaction back;
and every `invalid` return leaves the database (hence the balance)
unchanged. -/
theorem c9_redeem_invalid_already_used (db : LedgerDB) (telegram_id : Int)
    (code : String) (hw : ∀ p ∈ db.promo_codes, p.code ≠ "")
    (ht : 0 < telegram_id) :
    ((redeem_promo_code_for_user db telegram_id code).1.1 = .invalid ↔
      ¬ ∃ p ∈ db.promo_codes, p.code = _normalize_code code ∧
        p.is_active = true ∧ 0 < p.generations) ∧
    (∀ p, findPromoForUse db (_normalize_code code) = some p →
      (∃ r ∈ db.redemptions,
        r.promo_code_id = p.id ∧ r.telegram_id = telegram_id) →
      (redeem_promo_code_for_user db telegram_id code).1.1 = .already_used ∧
      (redeem_promo_code_for_user db telegram_id code).2 = db) ∧
    ((redeem_promo_code_for_user db telegram_id code).1.1 = .invalid →
      (redeem_promo_code_for_user db telegram_id code).2 = db) := by
  have hnt : decide (telegram_id ≤ 0) = false := decide_eq_false (by omega)
  by_cases hemp : _normalize_code code = ""
  · -- normalized code empty: immediate invalid, and nothing can match
    have hred : redeem_promo_code_for_user db telegram_id code =
        ((.invalid, 0, 0), db) := by
      unfold redeem_promo_code_for_user redeemCore
      rw [hemp]
      rfl
    refine ⟨?_, ?_, ?_⟩
    · rw [hred]
      simp only [true_iff]
      rintro ⟨p, hp, hcode, -⟩
      exact hw p hp (hcode.trans hemp)
    · intro p hfind
      exfalso
      have hp := List.mem_of_find?_eq_some hfind
      have hpc := List.find?_some hfind
      simp only [Bool.and_eq_true, beq_iff_eq, decide_eq_true_eq] at hpc
      exact hw p hp (hpc.1.1.trans hemp)
    · rw [hred]
      intro
      rfl
  · -- normalized code non-empty: the transaction body runs
    have hcond : ((_normalize_code code == "") || decide (telegram_id ≤ 0))
        = false := by
      rw [Bool.or_eq_false_iff]
      exact ⟨beq_eq_false_iff_ne.mpr hemp, hnt⟩
    rcases hfind : findPromoForUse db (_normalize_code code) with - | promo
    · -- no matching promo: invalid, database untouched
      have hred : redeem_promo_code_for_user db telegram_id code =
          ((.invalid, 0, getBalance db telegram_id), db) := by
        unfold redeem_promo_code_for_user redeemCore
        rw [hcond, hfind]
        rfl
      refine ⟨?_, ?_, ?_⟩
      · rw [hred]
        simp only [true_iff]
        rintro ⟨p, hp, hcode, hact, hgen⟩
        have := List.find?_eq_none.mp hfind p hp
        simp only [Bool.and_eq_true, beq_iff_eq, decide_eq_true_eq,
          not_and] at this
        exact absurd hgen (this ⟨hcode, hact⟩)
      · intro p hfind2
        exact Option.noConfusion hfind2
      · rw [hred]
        intro
        rfl
    · -- a matching promo was found and locked
      have hmem := List.mem_of_find?_eq_some hfind
      have hpred := List.find?_some hfind
      simp only [Bool.and_eq_true, beq_iff_eq, decide_eq_true_eq] at hpred
      by_cases hdup : ∃ r ∈ db.redemptions,
          r.promo_code_id = promo.id ∧ r.telegram_id = telegram_id
      · -- duplicate redemption: IntegrityError, rollback, already_used
        have hany : (db.redemptions.any fun r =>
            r.promo_code_id == promo.id && r.telegram_id == telegram_id)
            = true := by
          rw [List.any_eq_true]
          obtain ⟨r, hr, h1, h2⟩ := hdup
          exact ⟨r, hr, by simp [h1, h2]⟩
        have hred : redeem_promo_code_for_user db telegram_id code =
            ((.already_used, 0, getBalance db telegram_id), db) := by
          unfold redeem_promo_code_for_user redeemCore
          rw [hcond, hfind]
          simp only [hany]
          rfl
        refine ⟨?_, ?_, ?_⟩
        · refine iff_of_false (by simp [hred]) (not_not_intro ?_)
          exact ⟨promo, hmem, hpred.1.1, hpred.1.2, hpred.2⟩
        · intro p hfind2 _
          cases Option.some.inj hfind2
          rw [hred]
          exact ⟨rfl, rfl⟩
        · rw [hred]
          intro h
          cases h
      · -- first redemption by this account: success path
        have hany : (db.redemptions.any fun r =>
            r.promo_code_id == promo.id && r.telegram_id == telegram_id)
            = false := by
          rw [Bool.eq_false_iff]
          intro hco
          rw [List.any_eq_true] at hco
          obtain ⟨r, hr, hrr⟩ := hco
          simp only [Bool.and_eq_true, beq_iff_eq] at hrr
          exact hdup ⟨r, hr, hrr.1, hrr.2⟩
        have hred : (redeem_promo_code_for_user db telegram_id code).1.1 =
            .ok := by
          unfold redeem_promo_code_for_user redeemCore
          rw [hcond, hfind]
          simp only [hany]
          rfl
        refine ⟨?_, ?_, ?_⟩
        · refine iff_of_false (by simp [hred]) (not_not_intro ?_)
          exact ⟨promo, hmem, hpred.1.1, hpred.1.2, hpred.2⟩
        · intro p hfind2 hex
          cases Option.some.inj hfind2
          exact absurd hex hdup
        · rw [hred]
          intro h
          cases h

/-- Witness for C9: a database holding one active code already redeemed
by account 7; the second redemption call returns `already_used` and
changes nothing. -/
theorem c9_redeem_invalid_already_used_witness :
    (redeem_promo_code_for_user
        ⟨[⟨1, "A", 2, true⟩], [⟨1, 7, 2⟩], [⟨7, 0, 100⟩]⟩ 7 "a").1.1 =
      .already_used ∧
    (redeem_promo_code_for_user
        ⟨[⟨1, "A", 2, true⟩], [⟨1, 7, 2⟩], [⟨7, 0, 100⟩]⟩ 7 "a").2 =
      ⟨[⟨1, "A", 2, true⟩], [⟨1, 7, 2⟩], [⟨7, 0, 100⟩]⟩ := by
  have h := c9_redeem_invalid_already_used
    ⟨[⟨1, "A", 2, true⟩], [⟨1, 7, 2⟩], [⟨7, 0, 100⟩]⟩ 7 "a"
    (by decide) (by decide)
  exact h.2.1 ⟨1, "A", 2, true⟩ (by decide) ⟨⟨1, 7, 2⟩, by decide⟩

end PhotoshootBot
